import Mathlib

/-!
Verification of the `fastapi-opinionated-core` repository.

The development shallowly embeds the route-declaration registry
(`decorators/routing.py`, `routing/registry.py`), the application container
(`app.py`) and the plugin registry (`registry/plugin.py`, together with the
hook base class `shared/base_plugin.py`) as executable Lean definitions,
and settles the frozen claims C1 - C10 against them.

Modelling conventions:
* Python strings are `String` (or `List Char` where character-level
  manipulation matters, i.e. for paths).
* Python `None` is `Option.none`; a function that can raise returns an
  `Except AppError _` (paired with the state reached when it raised, for
  the stateful plugin-registry operations); each `AppError` constructor
  corresponds to one `raise` site (or `AttributeError` condition) in the
  source.
* Python dicts keep insertion order and overwrite in place; they are
  embedded as association lists with `dictGet` / `dictSet`.
-/

deriving instance DecidableEq for Except

namespace FastapiOpinionated

/-! ## Path normalization (`decorators/routing.py`) -/

/-- Characters stripped by Python's `str.strip()` (the ASCII whitespace
characters; the claims only involve ASCII inputs). -/
def pySpace (c : Char) : Bool :=
  c == ' ' || c == '\t' || c == '\n' || c == '\r' || c == '\x0b' || c == '\x0c'

/-- Python's `str.strip()`: drop `pySpace` characters from both ends. -/
def pyStrip (l : List Char) : List Char :=
  (l.dropWhile pySpace).rdropWhile pySpace

/-- `_normalize_path` from `decorators/routing.py` (lines 7-24):

    if path is None or str(path).strip() == "": return "/"
    path = str(path).strip()
    if not path.startswith("/"): return f"/{path}"
    return path

`none` models the Python argument `None`; `startswith "/"` is a check of
the first character. -/
def normalize_path (path : Option (List Char)) : List Char :=
  match path with
  | none => ['/']
  | some s =>
    if pyStrip s = [] then ['/']
    else
      let p := pyStrip s
      if p.head? = some '/' then p
      else '/' :: p

/-! ## Route declaration registry
(`decorators/routing.py` and `routing/registry.py`) -/

/-- The metadata the `Http` decorator attaches to a function
(`func._http_method`, `func._http_path`, `func._http_group`). -/
structure HttpAttrs where
  http_method : String
  http_path : List Char
  http_group : Option String
deriving DecidableEq

/-- The metadata-attachment part of the `Http` decorator
(`decorators/routing.py` lines 37-43): the path is normalized and stored
together with the verb and group.  The claims only use the verb shortcuts
(`Get`, `Post`, ...), which pass an already upper-case method string, so
`method.upper()` is not modelled separately.  An `Option String` group
models Python's `group` argument, whose only falsy value of interest is
`None`. -/
def httpDecorate (method : String) (path : Option (List Char))
    (group : Option String) : HttpAttrs :=
  { http_method := method, http_path := normalize_path path, http_group := group }

/-- Lexicographic code-point comparison of strings as lists of characters,
the order Python's `dir()` (via `sorted`) uses for attribute names. -/
def lexLt : List Char → List Char → Bool
  | [], [] => false
  | [], _ :: _ => true
  | _ :: _, [] => false
  | a :: as, b :: bs =>
    if a.toNat < b.toNat then true
    else if b.toNat < a.toNat then false
    else lexLt as bs

/-- Insert an attribute into a name-sorted list of attributes. -/
def insortAttr (x : String × HttpAttrs) :
    List (String × HttpAttrs) → List (String × HttpAttrs)
  | [] => [x]
  | y :: l => if lexLt x.1.data y.1.data then x :: y :: l else y :: insortAttr x l

/-- The attribute enumeration order of `dir(cls)` in the `Controller`
decorator (`decorators/routing.py` line 72): `dir()` returns the class's
attribute names sorted alphabetically, NOT in declaration order.  The
input lists the decorated methods in declaration order; attributes without
`_http_method` metadata are skipped by the `hasattr` filter and therefore
not modelled. -/
def dirSort : List (String × HttpAttrs) → List (String × HttpAttrs)
  | [] => []
  | x :: l => insortAttr x (dirSort l)

/-- One entry of the `methods` list built by the `Controller` decorator
(`decorators/routing.py` lines 76-85). -/
structure MethodMeta where
  func_name : String
  path : List Char
  http_method : String
  group : String
deriving DecidableEq

/-- `base_path.replace("/", "").upper()` (`decorators/routing.py` line 83). -/
def basePathGroup (base : List Char) : String :=
  String.mk ((base.filter fun c => c != '/').map Char.toUpper)

/-- The controller metadata registered by the `Controller` decorator
(`decorators/routing.py` lines 89-95).  The controller instance itself is
identified by `controller_name`. -/
structure ControllerMeta where
  controller_name : String
  base : List Char
  methods : List MethodMeta
deriving DecidableEq

/-- The `Controller(base_path, group)` decorator applied to a class whose
decorated methods, in declaration order, are `attrs`
(`decorators/routing.py` lines 67-95): methods are collected in `dir(cls)`
order and each one's group falls back from the method's own group to the
controller group to the derived base-path group. -/
def controllerDecorate (base_path : List Char) (group : Option String)
    (cls_name : String) (attrs : List (String × HttpAttrs)) : ControllerMeta :=
  { controller_name := cls_name
    base := base_path
    methods := (dirSort attrs).map fun na =>
      { func_name := na.1
        path := na.2.http_path
        http_method := na.2.http_method
        group :=
          match na.2.http_group with
          | some g => g
          | none =>
            match group with
            | some g => g
            | none => basePathGroup base_path } }

/-- A resolved route entry as produced by `RouterRegistry.get_routes`
(`routing/registry.py` lines 109-127) and consumed by
`as_fastapi_router`; the handler `getattr(instance, func_name)` is
identified by the controller name (`none` for a function route) and the
function name. -/
structure RouteEntry where
  path : List Char
  http_method : String
  controller : Option String
  func_name : String
  group : Option String
deriving DecidableEq

/-- A registered function route (`RouterRegistry.register_function_route`,
`routing/registry.py` lines 159-166). -/
structure FnRoute where
  func_name : String
  http_method : String
  path : List Char
  group : Option String
deriving DecidableEq

/-- The route entry `get_routes` produces for method `m` of controller `c`:
`path = base + m["path"]` with the other fields copied. -/
def routeOfMethod (c : ControllerMeta) (m : MethodMeta) : RouteEntry :=
  { path := c.base ++ m.path
    http_method := m.http_method
    controller := some c.controller_name
    func_name := m.func_name
    group := some m.group }

/-- `RouterRegistry.get_routes` (`routing/registry.py` lines 88-127):
flatten every registered controller's methods, in registration order,
into absolute-path route entries. -/
def get_routes (controllers : List ControllerMeta) : List RouteEntry :=
  controllers.flatMap fun c => c.methods.map (routeOfMethod c)

/-- The route entry `as_fastapi_router` adds for a function route. -/
def fnRouteEntry (f : FnRoute) : RouteEntry :=
  { path := f.path
    http_method := f.http_method
    controller := none
    func_name := f.func_name
    group := f.group }

/-- The route sequence `RouterRegistry.as_fastapi_router` binds
(`routing/registry.py` lines 241-269): all controller-based routes from
`get_routes`, then all function routes, each in registration order. -/
def router_routes (controllers : List ControllerMeta)
    (function_routes : List FnRoute) : List RouteEntry :=
  get_routes controllers ++ function_routes.map fnRouteEntry

/-- The decorated methods of the scenario controller of `test_routes.py`
(also the spec's §8 scenario), in declaration order: a `GET /` method
named `list` declared first, then a `POST /create` method named
`create`. -/
def userControllerAttrs : List (String × HttpAttrs) :=
  [("list", httpDecorate "GET" (some ['/']) none),
    ("create", httpDecorate "POST" (some ['/', 'c', 'r', 'e', 'a', 't', 'e']) none)]

/-- The scenario controller: `@Controller("/users") class UserController`. -/
def userController : ControllerMeta :=
  controllerDecorate ['/', 'u', 's', 'e', 'r', 's'] none "UserController"
    userControllerAttrs

/-! ## Ordered dictionaries -/

/-- Python dict lookup (`d.get(k)` / `k in d`). -/
def dictGet {β : Type _} : List (String × β) → String → Option β
  | [], _ => none
  | (k', v) :: rest, k => if k' == k then some v else dictGet rest k

/-- Python dict write `d[k] = v`: overwrite in place, append if new
(insertion order is preserved, last writer wins). -/
def dictSet {β : Type _} : List (String × β) → String → β → List (String × β)
  | [], k, v => [(k, v)]
  | (k', v') :: rest, k, v =>
    if k' == k then (k', v) :: rest else (k', v') :: dictSet rest k v

/-- Number of entries stored under key `k` (a Python dict always has 0
or 1). -/
def countKey {β : Type _} (d : List (String × β)) (k : String) : Nat :=
  (d.filter fun e => e.1 == k).length

/-! ## Plugins (`shared/base_plugin.py`, `app.py`, `registry/plugin.py`) -/

/-- Every distinct `raise` site (or raising condition) reachable from the
embedded operations. -/
inductive AppError
  /-- `App._cmd`: `Command '{name}' not found.` (app.py line 254) -/
  | commandNotFound
  /-- `App._cmd`: `FastAPI Must be initialized before using commands.`
  (app.py line 256) -/
  | cmdFastapiNotInitialized
  /-- `App._cmd`: `Command '{name}' returned None. ...` (app.py
  lines 259-262) -/
  | commandReturnedNothing
  /-- `App.enable` / `PluginRegistry.configurePlugin`: `plugin must be an
  instance of BasePlugin` (app.py line 299, registry/plugin.py line 37) -/
  | notAPlugin
  /-- `App.enable`: `FastAPI must be initialized before enabling plugins.`
  (app.py line 302) -/
  | enableFastapiNotInitialized
  /-- `PluginRegistry._enable_plugin_instance`: `FastAPI must be
  initialized first.` (registry/plugin.py line 58) -/
  | registryFastapiNotInitialized
  /-- a Python `AttributeError` for the named missing attribute -/
  | attributeError (attr : String)
  /-- `PluginRegistry._load_enabled_plugins`: `Plugin '{name}' requires
  configuration.` (registry/plugin.py lines 143-148) -/
  | missingRequiredConfig (name : String)
  /-- `PluginRegistry._enable_plugin_instance`: plugin api expected but
  `_internal()` returned None (registry/plugin.py lines 80-84) -/
  | pluginApiNone (name : String)
  /-- an overridden lifecycle hook body raised when invoked -/
  | hookRaised (hook : String)
deriving DecidableEq

/-- Method names defined in `BasePlugin`'s own class dict
(`shared/base_plugin.py` lines 61-208): the abstract internal initializer
and the four lifecycle hooks.  `BasePlugin` defines NO `on_pre_enable`,
`on_enable` or `on_post_enable`. -/
def basePluginDict : List String :=
  ["_internal", "on_ready", "on_ready_async", "on_shutdown", "on_shutdown_async"]

/-- A concrete plugin instance.  `dict` is the set of method names the
plugin's own class defines (its `__class__.__dict__`); an override is
assumed to be a new function object, so it is distinct from the base
class's method under `is`.  `returns_plugin_api` and `required_config`
are `none` when the class defines no such attribute.  `raising_hooks`
lists the hooks whose bodies raise when invoked, and `internal_result` /
`internal_raises` describe the behavior of the overridden `_internal`. -/
structure Plugin (α : Type) where
  dict : List String
  class_name : String := ""
  module : String := ""
  public_name : String := ""
  command_name : String := ""
  returns_plugin_api : Option Bool := none
  required_config : Option Bool := none
  raising_hooks : List String := []
  internal_result : Option α := none
  internal_raises : Bool := false
  is_base_plugin : Bool := true
deriving DecidableEq

/-- Python `hasattr(plugin, name)` for a method: found in the plugin's own
class dict or inherited from `BasePlugin`. -/
def hasattrPlugin {α : Type} (p : Plugin α) (name : String) : Bool :=
  p.dict.contains name || basePluginDict.contains name

/-- The evaluation of `plugin.__class__.<name> is not BasePlugin.<name>`
(the hook-override test of `registry/plugin.py` lines 67, 90, 99, 112).
The left operand is looked up first; either lookup raises
`AttributeError` when the attribute exists on neither class.  When both
resolve, the objects differ exactly when the plugin's class has its own
definition. -/
def identityDiffersFromBase {α : Type} (p : Plugin α) (name : String) :
    Except AppError Bool :=
  if p.dict.contains name || basePluginDict.contains name then
    if basePluginDict.contains name then .ok (p.dict.contains name)
    else .error (.attributeError name)
  else .error (.attributeError name)

/-- Invoking an overridden lifecycle hook body. -/
def callHook {α : Type} (p : Plugin α) (hook : String) : Except AppError Unit :=
  if p.raising_hooks.contains hook then .error (.hookRaised hook) else .ok ()

/-- `plugin.public_name or plugin.__class__.__name__`
(registry/plugin.py line 62): the empty string is falsy. -/
def pluginRegName {α : Type} (p : Plugin α) : String :=
  if p.public_name == "" then p.class_name else p.public_name

/-! ### `App` (`app.py`) -/

/-- The mutable class attributes of `App` that the embedded operations
touch: `_cmd_handlers`, `fastapi`, `plugin` (the namespace object) and
`_plugin_instances`.  A command handler is modelled by what it returns
for given kwargs (`None` = `none`); it receives `cls` and `cls.fastapi`
in the source, which the model keeps implicit in the function. -/
structure AppState (α κ φ : Type) where
  cmd_handlers : List (String × (κ → Option α))
  fastapi : Option φ
  plugin_ns : List (String × α)
  plugin_instances : List (String × Plugin α)

/-- `App._cmd` (app.py lines 216-264):

    if name not in cls._cmd_handlers: raise RuntimeError(f"Command '{name}' not found.")
    if cls.fastapi == None: raise RuntimeError("FastAPI Must be initialized before using commands.")
    result = cls._cmd_handlers[name](cls, cls.fastapi, **kwargs)
    if result is None: raise RuntimeError(f"Command '{name}' returned None. ...")
    return result

Note the membership check comes FIRST and the `fastapi` check second. -/
def appCmd {α κ φ : Type} (cmd_handlers : List (String × (κ → Option α)))
    (fastapi : Option φ) (name : String) (kwargs : κ) : Except AppError α :=
  match dictGet cmd_handlers name with
  | none => .error .commandNotFound
  | some handler =>
    if fastapi.isNone then .error .cmdFastapiNotInitialized
    else
      match handler kwargs with
      | none => .error .commandReturnedNothing
      | some result => .ok result

/-- `App.enable` (app.py lines 266-309): validate the instance, require
`fastapi`, run the plugin's command through `App._cmd`, then bind the api
under `public_name` and record the instance. -/
def appEnable {α κ φ : Type} (st : AppState α κ φ) (p : Plugin α) (kwargs : κ) :
    Except AppError (α × AppState α κ φ) :=
  if !p.is_base_plugin then .error .notAPlugin
  else if st.fastapi.isNone then .error .enableFastapiNotInitialized
  else
    match appCmd st.cmd_handlers st.fastapi p.command_name kwargs with
    | .error e => .error e
    | .ok plugin_api =>
      .ok (plugin_api,
        { st with
          plugin_ns := dictSet st.plugin_ns p.public_name plugin_api
          plugin_instances := dictSet st.plugin_instances p.public_name p })

/-- Observable outcome of a successful `App.enable` call: the returned
api, the namespace slot under the plugin's `public_name`, and how many
times the plugin is recorded in `_plugin_instances`. -/
def appEnableOutcome {α κ φ : Type} (st : AppState α κ φ) (p : Plugin α)
    (kwargs : κ) : Option (α × Option α × Nat) :=
  match appEnable st p kwargs with
  | .error _ => none
  | .ok (api, st') =>
    some (api, dictGet st'.plugin_ns p.public_name,
      countKey st'.plugin_instances p.public_name)

/-- The lifecycle-hook invocations of the startup half of
`combined_lifespan` (app.py lines 119-129): for every plugin in
`_plugin_instances` insertion order, the async ready hook then the sync
ready hook, each guarded only by `hasattr(plugin, ...)` — which is always
true, because `BasePlugin` itself defines both hooks. -/
def startupHookEvents {α : Type} (instances : List (String × Plugin α)) :
    List (String × String) :=
  instances.flatMap fun np =>
    (if hasattrPlugin np.2 "on_ready_async" then [(np.1, "on_ready_async")] else [])
      ++ (if hasattrPlugin np.2 "on_ready" then [(np.1, "on_ready")] else [])

/-- The lifecycle-hook invocations of the shutdown half of
`combined_lifespan` (app.py lines 144-158): for every plugin in the same
`_plugin_instances` insertion order, the async shutdown hook then the
sync shutdown hook, each guarded by
`"..." in plugin.__class__.__dict__` (override only). -/
def shutdownHookEvents {α : Type} (instances : List (String × Plugin α)) :
    List (String × String) :=
  instances.flatMap fun np =>
    (if np.2.dict.contains "on_shutdown_async" then [(np.1, "on_shutdown_async")] else [])
      ++ (if np.2.dict.contains "on_shutdown" then [(np.1, "on_shutdown")] else [])

/-! ### `PluginRegistry` (`registry/plugin.py`) -/

/-- The mutable class attributes of `PluginRegistry`: the `plugin`
namespace (whose slots may hold `None`), `_plugin_instances` and
`_plugin_config` (full class path ↦ (instance, config kwargs)).
`PluginRegistry.fastapi` is passed to the operations as an argument. -/
structure RegistryState (α : Type) where
  plugin_ns : List (String × Option α) := []
  plugin_instances : List (String × Plugin α) := []
  plugin_config : List (String × (Plugin α × List (String × α))) := []
deriving DecidableEq

/-- `PluginRegistry.configurePlugin` (registry/plugin.py lines 34-46):
validate the instance and store it with its config kwargs under
`f"{module}.{name}"`. -/
def configurePlugin {α : Type} (st : RegistryState α) (p : Plugin α)
    (config : List (String × α)) : Except AppError (RegistryState α) :=
  if !p.is_base_plugin then .error .notAPlugin
  else
    .ok { st with
      plugin_config :=
        dictSet st.plugin_config (p.module ++ "." ++ p.class_name) (p, config) }

/-- `PluginRegistry._enable_plugin_instance` (registry/plugin.py
lines 51-115), step by step.  A raise returns `.error` together with the
registry state at the moment of the raise (Python leaves prior mutations
in place).

* line 57: require `cls.fastapi`;
* line 67: pre-enable override test `plugin.__class__.on_pre_enable is
  not BasePlugin.on_pre_enable` — `BasePlugin` defines no
  `on_pre_enable`, so this comparison itself raises `AttributeError`;
* lines 76-94: the internal-initializer step.  `plugin.returns_plugin_api`
  raises `AttributeError` when the class defines no such attribute; the
  `returns_plugin_api` branch calls `cls._cmd(...)`, but `PluginRegistry`
  defines no `_cmd` method, so that lookup raises `AttributeError`; the
  non-api branch calls the overridden `_internal` inside
  `try: ... except Exception: pass`, so its result and any exception are
  discarded and `plugin_api` is `None`;
* line 99: enable override test (same `AttributeError`: no `on_enable`
  on `BasePlugin`);
* lines 106-107: namespace registration, BEFORE the post-enable step;
* line 112: post-enable override test (same `AttributeError`). -/
def enablePluginInstance {α φ : Type} (st : RegistryState α) (fastapi : Option φ)
    (p : Plugin α) (_kwargs : List (String × α)) :
    Except AppError (Option α) × RegistryState α :=
  if fastapi.isNone then (.error .registryFastapiNotInitialized, st)
  else
    let pname := pluginRegName p
    match identityDiffersFromBase p "on_pre_enable" with
    | .error e => (.error e, st)
    | .ok preOverridden =>
      match (if preOverridden then callHook p "on_pre_enable" else .ok ()) with
      | .error e => (.error e, st)
      | .ok () =>
        match
          (match p.returns_plugin_api with
            | none => Except.error (AppError.attributeError "returns_plugin_api")
            | some true => Except.error (AppError.attributeError "_cmd")
            | some false => Except.ok (none : Option α)) with
        | .error e => (.error e, st)
        | .ok plugin_api =>
          match identityDiffersFromBase p "on_enable" with
          | .error e => (.error e, st)
          | .ok enOverridden =>
            match (if enOverridden then callHook p "on_enable" else .ok ()) with
            | .error e => (.error e, st)
            | .ok () =>
              let st1 : RegistryState α :=
                { st with
                  plugin_ns := dictSet st.plugin_ns pname plugin_api
                  plugin_instances := dictSet st.plugin_instances pname p }
              match identityDiffersFromBase p "on_post_enable" with
              | .error e => (.error e, st1)
              | .ok postOverridden =>
                match (if postOverridden then callHook p "on_post_enable" else .ok ()) with
                | .error e => (.error e, st1)
                | .ok () => (.ok plugin_api, st1)

/-- `PluginRegistry._load_enabled_plugins` (registry/plugin.py
lines 120-158), given the parsed `ENABLED_PLUGINS` list: each entry is
the configured import path together with the freshly constructed
instance `PluginClass()` (file reading and importing are external
collaborators).  For each entry: read any `configurePlugin` entry, use
its config (else `{}`), validate `required_config` against the fresh
instance (skipped when `metadata_only`), replace the fresh instance by
the configured one when present, then enable (or, when `metadata_only`,
only record the instance). -/
def loadEnabledPlugins {α φ : Type} (st : RegistryState α) (fastapi : Option φ)
    (enabled : List (String × Plugin α)) (metadata_only : Bool) :
    Except AppError Unit × RegistryState α :=
  match enabled with
  | [] => (.ok (), st)
  | (path, fresh) :: rest =>
    let entry := dictGet st.plugin_config path
    let config : List (String × α) :=
      match entry with
      | some e => e.2
      | none => []
    if !metadata_only && fresh.required_config.getD false && config.isEmpty then
      (.error (.missingRequiredConfig fresh.public_name), st)
    else
      let inst :=
        match entry with
        | some e => e.1
        | none => fresh
      if metadata_only then
        loadEnabledPlugins
          { st with plugin_instances := dictSet st.plugin_instances inst.public_name inst }
          fastapi rest metadata_only
      else
        match enablePluginInstance st fastapi inst config with
        | (.error e, st') => (.error e, st')
        | (.ok _, st') => loadEnabledPlugins st' fastapi rest metadata_only

/-! ### Concrete plugin instances used in the claim scenarios -/

/-- A minimal concrete plugin: only the mandatory `_internal` override,
no lifecycle hook overridden. -/
def plainPlugin : Plugin Nat :=
  { dict := ["_internal"], class_name := "Plain", public_name := "plain" }

/-- A plugin overriding every hook the spec names; its pre-enable hook
body would raise (`hookRaised`) if it were ever invoked, making
non-invocation observable. -/
def fullPlugin : Plugin Nat :=
  { dict := ["_internal", "on_pre_enable", "on_enable", "on_post_enable",
      "on_ready", "on_ready_async", "on_shutdown", "on_shutdown_async"]
    class_name := "Full", public_name := "full"
    returns_plugin_api := some false
    raising_hooks := ["on_pre_enable"] }

/-- An instrumented plugin overriding the four lifespan hooks (used, once
per name, as the A-then-B pair of the sweep-order scenario). -/
def instrPlugin : Plugin Nat :=
  { dict := ["_internal", "on_ready", "on_ready_async", "on_shutdown",
      "on_shutdown_async"]
    class_name := "Instr" }

/-- A `returns_plugin_api = True` plugin whose registered command returns
the api value 7. -/
def apiPlugin : Plugin Nat :=
  { dict := ["_internal"], class_name := "ApiPlugin", module := "plugins.api"
    public_name := "api", command_name := "api_cmd"
    returns_plugin_api := some true }

/-- A `returns_plugin_api = False` plugin whose overridden `_internal`
raises (the raise is swallowed by design). -/
def uiPlugin : Plugin Nat :=
  { dict := ["_internal"], class_name := "UiPlugin", public_name := "ui"
    returns_plugin_api := some false, internal_raises := true }

/-- Spec scenario plugin P1: `required_config = True`, never configured. -/
def requiredPluginUnconfigured : Plugin Nat :=
  { dict := ["_internal"], class_name := "P1", module := "plugins.p1"
    public_name := "p1", command_name := "c1"
    returns_plugin_api := some true, required_config := some true }

/-- Spec scenario plugin P2: `required_config = True`, configured before
loading. -/
def requiredPluginConfigured : Plugin Nat :=
  { dict := ["_internal"], class_name := "P2", module := "plugins.p2"
    public_name := "p2", command_name := "c2"
    returns_plugin_api := some true, required_config := some true }

/-! ## Lemmas about `pyStrip` and `normalize_path` -/

theorem dropWhile_of_prefix_eq_self {p : Char → Bool} {l l' : List Char}
    (hpre : l' <+: l) (hl : l.dropWhile p = l) : l'.dropWhile p = l' := by
  rw [List.dropWhile_eq_self_iff] at hl ⊢
  intro h0
  have hlen : 0 < l.length := lt_of_lt_of_le h0 hpre.length_le
  have hget := hpre.getElem (n := 0) h0
  have := hl hlen
  simp only [List.get_eq_getElem] at this ⊢
  rwa [hget]

theorem pyStrip_idem (l : List Char) : pyStrip (pyStrip l) = pyStrip l := by
  unfold pyStrip
  have h1 : (l.dropWhile pySpace).dropWhile pySpace = l.dropWhile pySpace :=
    List.dropWhile_idempotent pySpace l
  have hpre := List.rdropWhile_prefix pySpace (l.dropWhile pySpace)
  have h2 : ((l.dropWhile pySpace).rdropWhile pySpace).dropWhile pySpace
      = (l.dropWhile pySpace).rdropWhile pySpace :=
    dropWhile_of_prefix_eq_self hpre h1
  rw [h2, List.rdropWhile_idempotent]

theorem pyStrip_eq_self_split {t : List Char} (h : pyStrip t = t) :
    t.dropWhile pySpace = t ∧ t.rdropWhile pySpace = t := by
  unfold pyStrip at h
  have hsuff := List.dropWhile_suffix (l := t) pySpace
  have hpre := List.rdropWhile_prefix pySpace (t.dropWhile pySpace)
  have hlen1 : t.length ≤ (t.dropWhile pySpace).length := by
    calc t.length = ((t.dropWhile pySpace).rdropWhile pySpace).length := by rw [h]
    _ ≤ (t.dropWhile pySpace).length := hpre.length_le
  have hdrop : t.dropWhile pySpace = t :=
    hsuff.eq_of_length (le_antisymm hsuff.length_le hlen1)
  refine ⟨hdrop, ?_⟩
  rwa [hdrop] at h

theorem pyStrip_slash_cons {t : List Char} (ht : t ≠ []) (h : pyStrip t = t) :
    pyStrip ('/' :: t) = '/' :: t := by
  obtain ⟨hdrop, hrdrop⟩ := pyStrip_eq_self_split h
  unfold pyStrip
  have hslash : pySpace '/' = false := by decide
  have hd : ('/' :: t).dropWhile pySpace = '/' :: t := by
    rw [List.dropWhile_cons]; simp [hslash]
  rw [hd, List.rdropWhile_eq_self_iff]
  intro _
  rw [List.getLast_cons ht]
  exact List.rdropWhile_eq_self_iff.mp hrdrop ht

theorem normalize_path_head (x : Option (List Char)) :
    (normalize_path x).head? = some '/' := by
  match x with
  | none => rfl
  | some s =>
    unfold normalize_path
    by_cases h : pyStrip s = []
    · simp [h]
    · simp only [h, if_false]
      by_cases hh : (pyStrip s).head? = some '/'
      · simp [hh]
      · simp [hh]

theorem normalize_path_idem (x : Option (List Char)) :
    normalize_path (some (normalize_path x)) = normalize_path x := by
  match x with
  | none => decide
  | some s =>
    by_cases h : pyStrip s = []
    · have hx : normalize_path (some s) = ['/'] := by
        unfold normalize_path; simp [h]
      rw [hx]; decide
    · have hps : pyStrip (pyStrip s) = pyStrip s := pyStrip_idem s
      by_cases hh : (pyStrip s).head? = some '/'
      · have hx : normalize_path (some s) = pyStrip s := by
          unfold normalize_path; simp [h, hh]
        rw [hx]
        unfold normalize_path
        simp [hps, h, hh]
      · have hx : normalize_path (some s) = '/' :: pyStrip s := by
          unfold normalize_path; simp [h, hh]
        rw [hx]
        have hstrip : pyStrip ('/' :: pyStrip s) = '/' :: pyStrip s :=
          pyStrip_slash_cons h hps
        unfold normalize_path
        simp [hstrip]

/-! ## Claims C9 and C10: path normalization -/

/-- C9, counterexample.  The claim states that values already starting
with "/" pass through normalization unchanged and that values not
starting with "/" only get a slash prepended; both fail on inputs with
surrounding whitespace: `"/list "` starts with "/" but is changed to
`"/list"`, and `" l"` does not start with "/" but normalizes to `"/l"`,
not to `"/ l"`. -/
theorem c9_normalize_counterexample :
    (['/', 'l', 'i', 's', 't', ' '].head? = some '/'
        ∧ normalize_path (some ['/', 'l', 'i', 's', 't', ' '])
            ≠ ['/', 'l', 'i', 's', 't', ' '])
      ∧ ([' ', 'l'].head? ≠ some '/'
        ∧ normalize_path (some [' ', 'l']) ≠ '/' :: [' ', 'l']) := by
  decide

/-- C9, amended: path normalization maps the absent value, the empty
string and whitespace-only strings to "/"; every other value is first
stripped of surrounding whitespace, then gets a leading slash prepended
when the stripped value does not start with "/", and passes through as
the stripped value when it does.  In particular `"list"` becomes
`"/list"`, and `"/list"` and `"/"` are unchanged. -/
theorem c9_normalize_amended :
    normalize_path none = ['/']
      ∧ (∀ s : List Char, (∀ c ∈ s, pySpace c) → normalize_path (some s) = ['/'])
      ∧ (∀ s : List Char, pyStrip s ≠ [] → (pyStrip s).head? = some '/' →
          normalize_path (some s) = pyStrip s)
      ∧ (∀ s : List Char, pyStrip s ≠ [] → (pyStrip s).head? ≠ some '/' →
          normalize_path (some s) = '/' :: pyStrip s)
      ∧ normalize_path (some []) = ['/']
      ∧ normalize_path (some [' ']) = ['/']
      ∧ normalize_path (some ['l', 'i', 's', 't']) = ['/', 'l', 'i', 's', 't']
      ∧ normalize_path (some ['/', 'l', 'i', 's', 't']) = ['/', 'l', 'i', 's', 't']
      ∧ normalize_path (some ['/']) = ['/'] := by
  refine ⟨rfl, ?_, ?_, ?_, by decide, by decide, by decide, by decide, by decide⟩
  · intro s hs
    have h1 : s.dropWhile pySpace = [] := List.dropWhile_eq_nil_iff.mpr hs
    have h2 : pyStrip s = [] := by
      unfold pyStrip; rw [h1]; rfl
    unfold normalize_path; simp [h2]
  · intro s h1 h2
    unfold normalize_path; simp [h1, h2]
  · intro s h1 h2
    unfold normalize_path; simp [h1, h2]

/-- Witness for the amended C9 at concrete inputs. -/
theorem c9_normalize_amended_witness :
    normalize_path (some [' ', '\t']) = ['/']
      ∧ normalize_path (some ['/', 'a', ' ']) = pyStrip ['/', 'a', ' ']
      ∧ normalize_path (some [' ', 'b']) = '/' :: pyStrip [' ', 'b'] :=
  ⟨c9_normalize_amended.2.1 [' ', '\t'] (by decide),
    c9_normalize_amended.2.2.1 ['/', 'a', ' '] (by decide) (by decide),
    c9_normalize_amended.2.2.2.1 [' ', 'b'] (by decide) (by decide)⟩

/-- C10: path normalization always produces a path that begins with "/",
and it is idempotent — normalizing an already-normalized path returns it
unchanged. -/
theorem c10_normalize_rooted_idempotent :
    (∀ x : Option (List Char), (normalize_path x).head? = some '/')
      ∧ ∀ x : Option (List Char),
          normalize_path (some (normalize_path x)) = normalize_path x :=
  ⟨normalize_path_head, normalize_path_idem⟩

/-! ## Lemmas about the `dir()`-order sort -/

theorem lexLt_asymm : ∀ a b : List Char, lexLt a b = true → lexLt b a = false
  | [], [] => by simp [lexLt]
  | [], _ :: _ => by simp [lexLt]
  | _ :: _, [] => by simp [lexLt]
  | a :: as, b :: bs => by
    simp only [lexLt]
    intro h
    by_cases h1 : a.toNat < b.toNat
    · have h2 : ¬ b.toNat < a.toNat := by omega
      simp [h1, h2]
    · by_cases h2 : b.toNat < a.toNat
      · rw [if_neg h1, if_pos h2] at h
        exact Bool.noConfusion h
      · rw [if_neg h1, if_neg h2] at h
        rw [if_neg h2, if_neg h1]
        exact lexLt_asymm as bs h

theorem lexLt_trans :
    ∀ a b c : List Char, lexLt a b = true → lexLt b c = true → lexLt a c = true
  | [], b, [] => by
    intro h1 h2
    cases b with
    | nil => exact absurd h1 (by simp [lexLt])
    | cons x xs => exact absurd h2 (by simp [lexLt])
  | [], _, _ :: _ => by intro _ _; simp [lexLt]
  | _ :: _, [], _ => by
    intro h1 _
    exact absurd h1 (by simp [lexLt])
  | _ :: _, _ :: _, [] => by
    intro _ h2
    exact absurd h2 (by simp [lexLt])
  | a :: as, b :: bs, c :: cs => by
    simp only [lexLt]
    intro h1 h2
    by_cases hab : a.toNat < b.toNat <;> by_cases hbc : b.toNat < c.toNat
    · have hac : a.toNat < c.toNat := by omega
      simp [hac]
    · by_cases hcb : c.toNat < b.toNat
      · rw [if_neg hbc, if_pos hcb] at h2
        exact Bool.noConfusion h2
      · have hac : a.toNat < c.toNat := by omega
        simp [hac]
    · by_cases hba : b.toNat < a.toNat
      · rw [if_neg hab, if_pos hba] at h1
        exact Bool.noConfusion h1
      · have hac : a.toNat < c.toNat := by omega
        simp [hac]
    · by_cases hba : b.toNat < a.toNat
      · rw [if_neg hab, if_pos hba] at h1
        exact Bool.noConfusion h1
      · by_cases hcb : c.toNat < b.toNat
        · rw [if_neg hbc, if_pos hcb] at h2
          exact Bool.noConfusion h2
        · rw [if_neg hab, if_neg hba] at h1
          rw [if_neg hbc, if_neg hcb] at h2
          have hac : ¬ a.toNat < c.toNat := by omega
          have hca : ¬ c.toNat < a.toNat := by omega
          rw [if_neg hac, if_neg hca]
          exact lexLt_trans as bs cs h1 h2

theorem insortAttr_perm (x : String × HttpAttrs) :
    ∀ l : List (String × HttpAttrs), (insortAttr x l).Perm (x :: l)
  | [] => List.Perm.refl _
  | y :: l => by
    simp only [insortAttr]
    by_cases h : lexLt x.1.data y.1.data = true
    · simp [h]
    · rw [if_neg h]
      exact ((insortAttr_perm x l).cons y).trans (List.Perm.swap x y l)

theorem dirSort_perm : ∀ l : List (String × HttpAttrs), (dirSort l).Perm l
  | [] => List.Perm.refl _
  | x :: l => (insortAttr_perm x (dirSort l)).trans ((dirSort_perm l).cons x)

theorem insortAttr_pairwise {x : String × HttpAttrs}
    {l : List (String × HttpAttrs)}
    (hl : l.Pairwise fun a b => lexLt b.1.data a.1.data = false) :
    (insortAttr x l).Pairwise fun a b => lexLt b.1.data a.1.data = false := by
  induction l with
  | nil => simp [insortAttr]
  | cons y l ih =>
    cases hl with
    | cons hy hl' =>
      simp only [insortAttr]
      by_cases h : lexLt x.1.data y.1.data = true
      · rw [if_pos h]
        refine List.Pairwise.cons ?_ (List.Pairwise.cons hy hl')
        intro z hz
        rcases List.mem_cons.mp hz with hzy | hzl
        · subst hzy
          exact lexLt_asymm _ _ h
        · cases hzx : lexLt z.1.data x.1.data with
          | false => rfl
          | true =>
            have := lexLt_trans _ _ _ hzx h
            rw [hy z hzl] at this
            exact Bool.noConfusion this
      · rw [if_neg h]
        refine List.Pairwise.cons ?_ (ih hl')
        intro z hz
        have hz' := (insortAttr_perm x l).mem_iff.mp hz
        rcases List.mem_cons.mp hz' with hzx | hzl
        · subst hzx
          exact Bool.eq_false_iff.mpr h
        · exact hy z hzl

theorem dirSort_pairwise :
    ∀ l : List (String × HttpAttrs),
      (dirSort l).Pairwise fun a b => lexLt b.1.data a.1.data = false
  | [] => List.Pairwise.nil
  | _ :: l => insortAttr_pairwise (dirSort_pairwise l)

/-! ## Claim C2: route resolution order -/

/-- C2, counterexample.  For the scenario controller — base `/users`,
`GET /` on a method named `list` declared first, `POST /create` on a
method named `create` declared second — the resolved route sequence is
`[{POST, /users/create}, {GET, /users/}]`, because the `Controller`
decorator collects methods through `dir(cls)`, which enumerates
attribute names alphabetically (`create` < `list`), not in declaration
order.  The claimed sequence `[{GET, /users/}, {POST, /users/create}]`
is therefore wrong. -/
theorem c2_route_order_counterexample :
    ((router_routes [userController] []).map fun r => (r.http_method, r.path))
        = [("POST", ['/', 'u', 's', 'e', 'r', 's', '/', 'c', 'r', 'e', 'a', 't', 'e']),
            ("GET", ['/', 'u', 's', 'e', 'r', 's', '/'])]
      ∧ ((router_routes [userController] []).map fun r => (r.http_method, r.path))
        ≠ [("GET", ['/', 'u', 's', 'e', 'r', 's', '/']),
            ("POST", ['/', 'u', 's', 'e', 'r', 's', '/', 'c', 'r', 'e', 'a', 't', 'e'])] := by
  decide

/-- C2, amended: route resolution keeps controllers in registration
order and emits all function routes, in registration order, after all
controller routes; but within one controller the methods appear in
`dir()`'s alphabetical attribute-name order (a permutation of the
declared methods sorted by name), not in declaration order.  For the
`/users` scenario the resolved sequence is
`[{POST, /users/create}, {GET, /users/}]`. -/
theorem c2_route_order_amended :
    (∀ (base : List Char) (group : Option String) (name : String)
        (attrs : List (String × HttpAttrs)),
        (((controllerDecorate base group name attrs).methods.map
            MethodMeta.func_name).Perm (attrs.map Prod.fst))
          ∧ ((controllerDecorate base group name attrs).methods.map
              MethodMeta.func_name).Pairwise
                fun a b => lexLt b.data a.data = false)
      ∧ (∀ (c : ControllerMeta) (cs : List ControllerMeta) (fs : List FnRoute),
          router_routes (c :: cs) fs
            = c.methods.map (routeOfMethod c) ++ router_routes cs fs)
      ∧ (∀ fs : List FnRoute, router_routes [] fs = fs.map fnRouteEntry)
      ∧ ((router_routes [userController] []).map fun r => (r.http_method, r.path))
          = [("POST", ['/', 'u', 's', 'e', 'r', 's', '/', 'c', 'r', 'e', 'a', 't', 'e']),
              ("GET", ['/', 'u', 's', 'e', 'r', 's', '/'])] := by
  refine ⟨?_, ?_, ?_, by decide⟩
  · intro base group name attrs
    have hnames :
        (controllerDecorate base group name attrs).methods.map MethodMeta.func_name
          = (dirSort attrs).map Prod.fst := by
      simp [controllerDecorate, List.map_map]
    constructor
    · rw [hnames]
      exact (dirSort_perm attrs).map Prod.fst
    · rw [hnames]
      exact List.pairwise_map.mpr (dirSort_pairwise attrs)
  · intro c cs fs
    simp [router_routes, get_routes, List.append_assoc]
  · intro fs
    simp [router_routes, get_routes]

/-! ## Claim C3: command invocation -/

/-- C3, counterexample.  With an unset serving handle AND an unregistered
name, `App._cmd` raises `CommandNotFound`, not `ServingHandleNotReady`:
the membership check comes first, so the serving-handle check is NOT
performed before the command lookup as the claim states. -/
theorem c3_cmd_counterexample :
    appCmd ([] : List (String × (Unit → Option Nat))) (none : Option Unit)
        "migrate" () = .error .commandNotFound
      ∧ appCmd ([] : List (String × (Unit → Option Nat))) (none : Option Unit)
          "migrate" () ≠ .error .cmdFastapiNotInitialized := by
  decide

/-- C3, amended: invoking a command fails with `CommandNotFound` when the
name is unregistered — with that lookup check performed BEFORE the
serving-handle check; fails with `ServingHandleNotReady` when the name is
registered but the serving handle is unset; fails with
`CommandReturnedNothing` when the registered handler returns the null
sentinel; and otherwise returns the handler's result unchanged. -/
theorem c3_cmd_amended :
    ∀ (α κ φ : Type) (handlers : List (String × (κ → Option α)))
      (fastapi : Option φ) (name : String) (kwargs : κ),
      (dictGet handlers name = none →
        appCmd handlers fastapi name kwargs = .error .commandNotFound)
      ∧ (∀ h, dictGet handlers name = some h → fastapi = none →
          appCmd handlers fastapi name kwargs = .error .cmdFastapiNotInitialized)
      ∧ (∀ h f, dictGet handlers name = some h → fastapi = some f →
          h kwargs = none →
          appCmd handlers fastapi name kwargs = .error .commandReturnedNothing)
      ∧ (∀ h f r, dictGet handlers name = some h → fastapi = some f →
          h kwargs = some r →
          appCmd handlers fastapi name kwargs = .ok r) := by
  intro α κ φ handlers fastapi name kwargs
  refine ⟨?_, ?_, ?_, ?_⟩
  · intro hn
    simp [appCmd, hn]
  · intro h hh hf
    subst hf
    simp [appCmd, hh]
  · intro h f hh hf hr
    subst hf
    simp [appCmd, hh, hr]
  · intro h f r hh hf hr
    subst hf
    simp [appCmd, hh, hr]

/-- Witness for the amended C3: each of the four cases at a concrete
input. -/
theorem c3_cmd_amended_witness :
    appCmd ([] : List (String × (Unit → Option Nat))) (some ()) "c" ()
        = .error .commandNotFound
      ∧ appCmd [("c", fun _ : Unit => some (5 : Nat))] (none : Option Unit)
          "c" () = .error .cmdFastapiNotInitialized
      ∧ appCmd [("n", fun _ : Unit => (none : Option Nat))] (some ()) "n" ()
          = .error .commandReturnedNothing
      ∧ appCmd [("c", fun _ : Unit => some (5 : Nat))] (some ()) "c" ()
          = .ok 5 :=
  ⟨(c3_cmd_amended Nat Unit Unit [] (some ()) "c" ()).1 rfl,
    (c3_cmd_amended Nat Unit Unit [("c", fun _ => some 5)] none "c" ()).2.1
      _ rfl rfl,
    (c3_cmd_amended Nat Unit Unit [("n", fun _ => none)] (some ()) "n" ()).2.2.1
      _ () rfl rfl rfl,
    (c3_cmd_amended Nat Unit Unit [("c", fun _ => some 5)] (some ()) "c" ()).2.2.2
      _ () 5 rfl rfl rfl⟩

/-! ## Claim C4: sweep order -/

/-- C4: both halves of `combined_lifespan` iterate `_plugin_instances` in
insertion order — the hook-event streams distribute over list append in
order (so an earlier-activated plugin's events always precede a
later-activated one's; nothing is reversed), and for an instrumented
A-then-B pair overriding all four hooks the observed startup order is
A, B and the observed shutdown order is also A, B. -/
theorem c4_sweep_order :
    (∀ (α : Type) (ps qs : List (String × Plugin α)),
        startupHookEvents (ps ++ qs)
          = startupHookEvents ps ++ startupHookEvents qs)
      ∧ (∀ (α : Type) (ps qs : List (String × Plugin α)),
          shutdownHookEvents (ps ++ qs)
            = shutdownHookEvents ps ++ shutdownHookEvents qs)
      ∧ startupHookEvents [("A", instrPlugin), ("B", instrPlugin)]
          = [("A", "on_ready_async"), ("A", "on_ready"),
              ("B", "on_ready_async"), ("B", "on_ready")]
      ∧ shutdownHookEvents [("A", instrPlugin), ("B", instrPlugin)]
          = [("A", "on_shutdown_async"), ("A", "on_shutdown"),
              ("B", "on_shutdown_async"), ("B", "on_shutdown")] := by
  refine ⟨?_, ?_, by decide, by decide⟩
  · intro α ps qs
    simp [startupHookEvents, List.flatMap_append]
  · intro α ps qs
    simp [shutdownHookEvents, List.flatMap_append]

/-! ## Claim C5: no partial registration on activation failure -/

theorem enablePluginInstance_state (α φ : Type) (st : RegistryState α)
    (fastapi : Option φ) (p : Plugin α) (kwargs : List (String × α)) :
    (enablePluginInstance st fastapi p kwargs).2 = st
      ∧ ∃ e, (enablePluginInstance st fastapi p kwargs).1 = Except.error e := by
  cases fastapi with
  | none => exact ⟨rfl, .registryFastapiNotInitialized, rfl⟩
  | some f =>
    have hid : identityDiffersFromBase p "on_pre_enable"
        = Except.error (AppError.attributeError "on_pre_enable") := by
      unfold identityDiffersFromBase
      have hb : basePluginDict.contains "on_pre_enable" = false := by decide
      rw [hb]
      cases hd : p.dict.contains "on_pre_enable" <;> simp
    refine ⟨?_, AppError.attributeError "on_pre_enable", ?_⟩ <;>
      simp [enablePluginInstance, hid]

/-- C5: whenever `_enable_plugin_instance` fails (at any step), a plugin
that was absent from the plugin namespace before the call is still absent
after it — activation performs no partial registration on error.  (In
this code base every activation in fact fails before the namespace write:
the pre-enable override test raises `AttributeError` because `BasePlugin`
defines no `on_pre_enable`.) -/
theorem c5_no_partial_registration :
    ∀ (α φ : Type) (st : RegistryState α) (fastapi : Option φ) (p : Plugin α)
      (kwargs : List (String × α)) (e : AppError) (st' : RegistryState α),
      enablePluginInstance st fastapi p kwargs = (.error e, st') →
      dictGet st.plugin_ns (pluginRegName p) = none →
      dictGet st'.plugin_ns (pluginRegName p) = none := by
  intro α φ st fastapi p kwargs e st' hEq hAbsent
  have hsnd : (enablePluginInstance st fastapi p kwargs).2 = st' := by rw [hEq]
  have hst : st' = st := by
    rw [← hsnd]
    exact (enablePluginInstance_state α φ st fastapi p kwargs).1
  rw [hst]
  exact hAbsent

/-- Witness for C5 at a concrete input: a failing activation over a
namespace that already holds a different plugin. -/
theorem c5_no_partial_registration_witness :
    enablePluginInstance
        ({ plugin_ns := [("other", some 1)] } : RegistryState Nat) (some ())
        plainPlugin []
      = (Except.error (AppError.attributeError "on_pre_enable"),
          { plugin_ns := [("other", some 1)] })
      ∧ dictGet ({ plugin_ns := [("other", some 1)] } : RegistryState Nat).plugin_ns
          (pluginRegName plainPlugin) = none :=
  ⟨by decide,
    c5_no_partial_registration Nat Unit { plugin_ns := [("other", some 1)] }
      (some ()) plainPlugin [] (AppError.attributeError "on_pre_enable")
      { plugin_ns := [("other", some 1)] } (by decide) (by decide)⟩

/-! ## Claims C1, C6, C7, C8: divergences of the plugin lifecycle code -/

/-- C1, evaluation at the failing inputs.  The claim — every one of the
seven hooks is invoked iff overridden — fails in both directions:
`plainPlugin` overrides no lifecycle hook, yet the startup sweep invokes
both ready hooks on it (the guard is `hasattr`, which is always true
because `BasePlugin` itself defines them), while the shutdown sweep
correctly skips it; and `fullPlugin` overrides `on_pre_enable` (with a
body that would surface as `hookRaised` if invoked), yet activation
raises `AttributeError` on the override test itself — `BasePlugin`
defines no `on_pre_enable` — so the overridden hook is never invoked. -/
theorem c1_lifecycle_hooks_code_bug :
    startupHookEvents [("plain", plainPlugin)]
        = [("plain", "on_ready_async"), ("plain", "on_ready")]
      ∧ shutdownHookEvents [("plain", plainPlugin)] = []
      ∧ enablePluginInstance ({} : RegistryState Nat) (some ()) fullPlugin []
          = (Except.error (AppError.attributeError "on_pre_enable"), {}) := by
  decide

/-- C6, evaluation at the failing input.  Activating `apiPlugin`
(`returns_plugin_api = True`, command registered and returning 7) through
the orchestrator path `_enable_plugin_instance` raises `AttributeError`
before anything is bound, so no namespace slot is written; by contrast
the `App.enable` path does bind the api value under `public_name` and
records the plugin exactly once. -/
theorem c6_returns_api_code_bug :
    enablePluginInstance ({} : RegistryState Nat) (some ()) apiPlugin []
        = (Except.error (AppError.attributeError "on_pre_enable"), {})
      ∧ dictGet ({} : RegistryState Nat).plugin_ns "api" = none
      ∧ appEnableOutcome
          ({ cmd_handlers := [("api_cmd", fun _ : Unit => some (7 : Nat))]
             fastapi := some ()
             plugin_ns := []
             plugin_instances := [] } : AppState Nat Unit Unit)
          apiPlugin () = some (7, some 7, 1) := by
  decide

/-- C7, evaluation at the failing input.  Activating `uiPlugin`
(`returns_plugin_api = False`, raising `_internal`) raises
`AttributeError` at the pre-enable override test, before the
internal-initializer step is ever reached: no `api = None` slot is bound
in the namespace and activation IS aborted, contrary to the claim. -/
theorem c7_non_api_code_bug :
    enablePluginInstance ({} : RegistryState Nat) (some ()) uiPlugin []
        = (Except.error (AppError.attributeError "on_pre_enable"), {})
      ∧ dictGet ({} : RegistryState Nat).plugin_ns "ui" = none := by
  decide

/-- C8, evaluation.  The first half of the claim holds: loading
unconfigured P1 (`required_config = True`) fails with
`MissingRequiredConfig` before any enabling.  The second half fails:
loading configured P2 does not activate it — `_enable_plugin_instance`
raises `AttributeError` on the pre-enable override test and `p2` never
appears in the namespace. -/
theorem c8_required_config_code_bug :
    (loadEnabledPlugins ({} : RegistryState Nat) (some ())
          [("plugins.p1.P1", requiredPluginUnconfigured)] false).1
        = Except.error (AppError.missingRequiredConfig "p1")
      ∧ configurePlugin ({} : RegistryState Nat) requiredPluginConfigured
          [("k", 0)]
        = Except.ok { plugin_config :=
            [("plugins.p2.P2", (requiredPluginConfigured, [("k", 0)]))] }
      ∧ (loadEnabledPlugins
            ({ plugin_config :=
                [("plugins.p2.P2", (requiredPluginConfigured, [("k", 0)]))] }
              : RegistryState Nat) (some ())
            [("plugins.p2.P2", requiredPluginConfigured)] false).1
          = Except.error (AppError.attributeError "on_pre_enable")
      ∧ dictGet (loadEnabledPlugins
            ({ plugin_config :=
                [("plugins.p2.P2", (requiredPluginConfigured, [("k", 0)]))] }
              : RegistryState Nat) (some ())
            [("plugins.p2.P2", requiredPluginConfigured)] false).2.plugin_ns
          "p2" = none := by
  decide

end FastapiOpinionated
